import Mathlib

/-!
Shallow embedding of the overlay-captions Tauri backend
(`src-tauri/src/{settings,window_manager,commands,lib}.rs`).

Settings (settings.rs) are modelled as Lean structures; numeric Rust types
`i32`/`u32` become `Int`/`Nat`, and the float-valued style fields (`opacity`,
`line_height`), on which the program performs no arithmetic (they are only
stored and round-tripped through JSON), become `Rat`.

JSON (de)serialization via serde is modelled at the record level: a `Raw…`
structure represents the JSON object actually found in the file, with every
field optional.  serde's derive rejects a missing field that carries no
`#[serde(default)]` and no `Option` type; the single `#[serde(default =
"default_line_height")]` in the source appears as the one default-fill in
`RawFontSettings.deser`, and `Option`-typed fields (`last_session_code`)
deserialize to `none` when absent, exactly as serde does.

Window state (window_manager.rs / commands.rs / lib.rs) is a three-state
machine per window identity (absent / hidden / shown), a main-window
visibility flag, the shared `overlay_visible` boolean of `AppState`, and a
counter of `WebviewWindowBuilder::build` invocations.  The one native call
whose failure the code explicitly handles — window construction — is
modelled by a `buildOk : Bool` environment flag; the remaining native
window calls are modelled as succeeding.
-/

namespace Jutukuva

/-- `Position { x: i32, y: i32 }` from settings.rs. -/
structure Position where
  x : Int
  y : Int
deriving DecidableEq, Repr

/-- `Size { width: u32, height: u32 }` from settings.rs. -/
structure Size where
  width : Nat
  height : Nat
deriving DecidableEq, Repr

/-- `OverlaySettings` from settings.rs. -/
structure OverlaySettings where
  enabled : Bool
  position : Position
  size : Size
  position_preset : String
  opacity : Rat
  click_through : Bool
  always_on_top : Bool
  display_mode : String
  background_color : String
deriving DecidableEq, Repr

/-- `FontSettings` from settings.rs; `line_height` is the only field with a
serde default (`default_line_height`). -/
structure FontSettings where
  family : String
  size : Nat
  weight : Nat
  color : String
  align : String
  line_height : Rat
deriving DecidableEq, Repr

/-- `fn default_line_height() -> f64 { 1.3 }` from settings.rs. -/
def default_line_height : Rat := 13 / 10

/-- `ConnectionSettings` from settings.rs. -/
structure ConnectionSettings where
  yjs_server_url : String
  auto_connect : Bool
deriving DecidableEq, Repr

/-- `AppSettings` from settings.rs. -/
structure AppSettings where
  overlay : OverlaySettings
  font : FontSettings
  connection : ConnectionSettings
  last_session_code : Option String
  theme : String
deriving DecidableEq, Repr

/-- `impl Default for AppSettings` from settings.rs. -/
def AppSettings.default : AppSettings :=
  { overlay :=
      { enabled := false
        position := { x := 500, y := 600 }
        size := { width := 600, height := 160 }
        position_preset := "bottom"
        opacity := 95 / 100
        click_through := false
        always_on_top := true
        display_mode := "lastOnly"
        background_color := "#000000" }
    font :=
      { family := "Inter, system-ui, sans-serif"
        size := 32
        weight := 500
        color := "#ffffff"
        align := "justify"
        line_height := 13 / 10 }
    connection :=
      { yjs_server_url := "wss://tekstiks.ee/kk"
        auto_connect := true }
    last_session_code := none
    theme := "system" }

/-- The JSON object view of `OverlaySettings`: each key may be absent. -/
structure RawOverlaySettings where
  enabled : Option Bool
  position : Option Position
  size : Option Size
  position_preset : Option String
  opacity : Option Rat
  click_through : Option Bool
  always_on_top : Option Bool
  display_mode : Option String
  background_color : Option String
deriving DecidableEq, Repr

/-- The JSON object view of `FontSettings`: each key may be absent. -/
structure RawFontSettings where
  family : Option String
  size : Option Nat
  weight : Option Nat
  color : Option String
  align : Option String
  line_height : Option Rat
deriving DecidableEq, Repr

/-- The JSON object view of `ConnectionSettings`: each key may be absent. -/
structure RawConnectionSettings where
  yjs_server_url : Option String
  auto_connect : Option Bool
deriving DecidableEq, Repr

/-- The JSON object view of `AppSettings`: each key may be absent.  For the
`Option<String>` field `last_session_code` the outer `Option` records key
absence, the inner one the JSON `null`. -/
structure RawAppSettings where
  overlay : Option RawOverlaySettings
  font : Option RawFontSettings
  connection : Option RawConnectionSettings
  last_session_code : Option (Option String)
  theme : Option String
deriving DecidableEq, Repr

/-- serde deserialization of `OverlaySettings`: every field is required
(none carries a serde default in the source). -/
def RawOverlaySettings.deser (r : RawOverlaySettings) : Option OverlaySettings := do
  let enabled ← r.enabled
  let position ← r.position
  let size ← r.size
  let position_preset ← r.position_preset
  let opacity ← r.opacity
  let click_through ← r.click_through
  let always_on_top ← r.always_on_top
  let display_mode ← r.display_mode
  let background_color ← r.background_color
  pure { enabled, position, size, position_preset, opacity, click_through,
         always_on_top, display_mode, background_color }

/-- serde deserialization of `FontSettings`: all fields required except
`line_height`, which falls back to `default_line_height` when the key is
missing (the one `#[serde(default = …)]` in the source). -/
def RawFontSettings.deser (r : RawFontSettings) : Option FontSettings := do
  let family ← r.family
  let size ← r.size
  let weight ← r.weight
  let color ← r.color
  let align ← r.align
  let line_height := r.line_height.getD default_line_height
  pure { family, size, weight, color, align, line_height }

/-- serde deserialization of `ConnectionSettings`: every field required. -/
def RawConnectionSettings.deser (r : RawConnectionSettings) :
    Option ConnectionSettings := do
  let yjs_server_url ← r.yjs_server_url
  let auto_connect ← r.auto_connect
  pure { yjs_server_url, auto_connect }

/-- serde deserialization of `AppSettings`: the three nested records and
`theme` are required; a missing `lastSessionCode` key deserializes to `none`,
as serde does for `Option`-typed fields. -/
def RawAppSettings.deser (r : RawAppSettings) : Option AppSettings := do
  let overlay ← r.overlay >>= RawOverlaySettings.deser
  let font ← r.font >>= RawFontSettings.deser
  let connection ← r.connection >>= RawConnectionSettings.deser
  let last_session_code := r.last_session_code.getD none
  let theme ← r.theme
  pure { overlay, font, connection, last_session_code, theme }

/-- serde serialization (`serde_json::to_string_pretty`) at the record
level: every key of the record is written. -/
def AppSettings.ser (s : AppSettings) : RawAppSettings :=
  { overlay := some
      { enabled := some s.overlay.enabled
        position := some s.overlay.position
        size := some s.overlay.size
        position_preset := some s.overlay.position_preset
        opacity := some s.overlay.opacity
        click_through := some s.overlay.click_through
        always_on_top := some s.overlay.always_on_top
        display_mode := some s.overlay.display_mode
        background_color := some s.overlay.background_color }
    font := some
      { family := some s.font.family
        size := some s.font.size
        weight := some s.font.weight
        color := some s.font.color
        align := some s.font.align
        line_height := some s.font.line_height }
    connection := some
      { yjs_server_url := some s.connection.yjs_server_url
        auto_connect := some s.connection.auto_connect }
    last_session_code := some s.last_session_code
    theme := some s.theme }

/-- What reading the settings file can observe: a JSON object (possibly with
missing keys), content that is not a JSON `AppSettings`-shaped document at
all, or content that `fs::read_to_string` cannot read. -/
inductive FileContent where
  | good (r : RawAppSettings)
  | badJson
  | unreadable
deriving DecidableEq, Repr

/-- The settings file on disk; `none` means `path.exists()` is false. -/
def FileState := Option FileContent
deriving instance DecidableEq, Repr for FileState

/-- `load_settings` from settings.rs: if the file exists, reads and parses
it, returning the parsed record on success; every failure (missing file,
unreadable content, malformed content) falls through to
`AppSettings::default()`. -/
def load_settings (file : FileState) : AppSettings :=
  match file with
  | some (FileContent.good r) => (r.deser).getD AppSettings.default
  | some FileContent.badJson => AppSettings.default
  | some FileContent.unreadable => AppSettings.default
  | none => AppSettings.default

/-- Environment for `save_settings`: whether `serde_json::to_string_pretty`
succeeds (`encodeOk`) and whether `fs::write` succeeds (`writeOk`). -/
structure SaveEnv where
  encodeOk : Bool
  writeOk : Bool
deriving DecidableEq, Repr

/-- `save_settings` from settings.rs: serializes first and, only when the
encoding succeeded, writes the file.  An encoding failure returns early
before touching the file; a `fs::write` failure leaves the file in an
unspecified broken state, modelled as `unreadable`. -/
def save_settings (env : SaveEnv) (s : AppSettings) (file : FileState) :
    Except String Unit × FileState :=
  if env.encodeOk then
    if env.writeOk then (Except.ok (), some (FileContent.good s.ser))
    else (Except.error "io error", some FileContent.unreadable)
  else (Except.error "serialization error", file)

/-- The settings half of `AppState`: the in-memory snapshot behind the
`settings` mutex, plus the on-disk file. -/
structure SettingsSys where
  inMemory : AppSettings
  file : FileState
deriving DecidableEq, Repr

/-- The `save_settings` Tauri command from commands.rs: replaces the
in-memory snapshot with `new_settings` first, then attempts persistence via
`settings::save_settings`; the snapshot is not rolled back on failure. -/
def save_settings_command (env : SaveEnv) (new_settings : AppSettings)
    (st : SettingsSys) : Except String Unit × SettingsSys :=
  let st' : SettingsSys := { st with inMemory := new_settings }
  let (r, file') := save_settings env new_settings st'.file
  (r, { st' with file := file' })

/-- Lifecycle state of one window identity: never created or destroyed
(`absent`), created but hidden (`hidden`), created and shown (`shown`). -/
inductive WinState where
  | absent
  | hidden
  | shown
deriving DecidableEq, Repr

/-- How many native windows carry the overlay identity: Tauri keys webview
windows by label, so `get_webview_window("overlay")` is a singleton lookup. -/
def WinState.count : WinState → Nat
  | WinState.absent => 0
  | WinState.hidden => 1
  | WinState.shown => 1

/-- The window-facing half of the process state: the overlay window's
lifecycle state, the main window's visibility, the shared `overlay_visible`
flag of `AppState`, how many times `WebviewWindowBuilder::build` has run,
and the `settings.overlay` snapshot that creation reads. -/
structure WinSys where
  overlay : WinState
  mainVisible : Bool
  overlayVisible : Bool
  buildCalls : Nat
  settings : OverlaySettings
deriving DecidableEq, Repr

/-- The process state at startup (`run` in lib.rs): no overlay window,
`overlay_visible: Mutex::new(false)`, main window visible. -/
def WinSys.init : WinSys :=
  { overlay := WinState.absent
    mainVisible := true
    overlayVisible := false
    buildCalls := 0
    settings := AppSettings.default.overlay }

/-- `create_overlay_window` from window_manager.rs: if a window labelled
"overlay" already exists it returns `Ok(())` without building; otherwise it
runs the platform builder.  `buildOk` is whether `builder.build()` succeeds;
the post-build `set_always_on_top` and conditional `set_ignore_cursor_events`
calls are modelled as succeeding. -/
def create_overlay_window (buildOk : Bool) (s : WinSys) :
    Except String Unit × WinSys :=
  if s.overlay ≠ WinState.absent then
    (Except.ok (), s)
  else if buildOk then
    (Except.ok (), { s with overlay := WinState.shown,
                            buildCalls := s.buildCalls + 1 })
  else
    (Except.error "build failed", s)

/-- `show_overlay_window` from window_manager.rs: `window.show()` if the
overlay exists, a no-op otherwise. -/
def show_overlay_window (s : WinSys) : Except String Unit × WinSys :=
  if s.overlay = WinState.absent then (Except.ok (), s)
  else (Except.ok (), { s with overlay := WinState.shown })

/-- `hide_overlay_window` from window_manager.rs: `window.hide()` if the
overlay exists, a no-op otherwise. -/
def hide_overlay_window (s : WinSys) : Except String Unit × WinSys :=
  if s.overlay = WinState.absent then (Except.ok (), s)
  else (Except.ok (), { s with overlay := WinState.hidden })

/-- `close_overlay_window` from window_manager.rs: `window.close()` if the
overlay exists, a no-op otherwise. -/
def close_overlay_window (s : WinSys) : Except String Unit × WinSys :=
  (Except.ok (), { s with overlay := WinState.absent })

/-- The `show_overlay` Tauri command from commands.rs: creates the overlay
if absent, else shows it; only after that action returned `Ok` is the flag
set to `true`.  An error propagates via `?` with the flag untouched. -/
def show_overlay (buildOk : Bool) (s : WinSys) :
    Except String Unit × WinSys :=
  let (r, s') :=
    if s.overlay = WinState.absent then create_overlay_window buildOk s
    else show_overlay_window s
  match r with
  | Except.error e => (Except.error e, s')
  | Except.ok () => (Except.ok (), { s' with overlayVisible := true })

/-- The `hide_overlay` Tauri command from commands.rs: hides the window,
then sets the flag to `false`. -/
def hide_overlay (s : WinSys) : Except String Unit × WinSys :=
  let (_, s') := hide_overlay_window s
  (Except.ok (), { s' with overlayVisible := false })

/-- The `close_overlay` Tauri command from commands.rs: closes the window,
then sets the flag to `false`. -/
def close_overlay (s : WinSys) : Except String Unit × WinSys :=
  let (_, s') := close_overlay_window s
  (Except.ok (), { s' with overlayVisible := false })

/-- The `toggle_overlay` Tauri command from commands.rs: reads the flag
under its lock, then delegates to `hide_overlay` (returning `false`) or
`show_overlay` (returning `true`), propagating errors. -/
def toggle_overlay (buildOk : Bool) (s : WinSys) :
    Except String Bool × WinSys :=
  if s.overlayVisible then
    let (_, s') := hide_overlay s
    (Except.ok false, s')
  else
    match show_overlay buildOk s with
    | (Except.error e, s') => (Except.error e, s')
    | (Except.ok (), s') => (Except.ok true, s')

/-- The `get_overlay_visible` Tauri command from commands.rs. -/
def get_overlay_visible (s : WinSys) : Except String Bool :=
  Except.ok s.overlayVisible

/-- `show_main_window` from lib.rs: hides the overlay if it exists, resets
the flag to `false`, then shows and focuses the main window. -/
def show_main_window (s : WinSys) : WinSys :=
  let s' :=
    if s.overlay = WinState.absent then s
    else { s with overlay := WinState.hidden }
  { s' with overlayVisible := false, mainVisible := true }

/-- `spawn_show_overlay_window` from lib.rs (the tray "show overlay" path):
hides the main window, then creates the overlay if absent — on creation
failure it re-shows the main window and returns with the flag untouched —
or shows the existing overlay (result ignored); only after that does it set
the flag to `true`. -/
def spawn_show_overlay_window (buildOk : Bool) (s : WinSys) : WinSys :=
  let s₁ := { s with mainVisible := false }
  if s₁.overlay = WinState.absent then
    match create_overlay_window buildOk s₁ with
    | (Except.error _, s₂) => { s₂ with mainVisible := true }
    | (Except.ok (), s₂) => { s₂ with overlayVisible := true }
  else
    let s₂ := (show_overlay_window s₁).2
    { s₂ with overlayVisible := true }

/-- The `WindowEvent::CloseRequested` arm of `on_window_event` in lib.rs:
for the main window it closes the overlay and resets the flag; for the
overlay window it calls `show_main_window`. -/
def on_close_requested (label : String) (s : WinSys) : WinSys :=
  if label = "main" then
    let s' := (close_overlay_window s).2
    { s' with overlayVisible := false }
  else if label = "overlay" then
    show_main_window s
  else s

/-- The UTF-8 byte length of a Rust `String`, `text.len()`: the sum of the
UTF-8 sizes of its characters. -/
def utf8Len (text : List Char) : Nat :=
  (text.map Char.utf8Size).sum

/-- Whether byte index `i` is a character boundary of the UTF-8 encoding of
`text`: some character-prefix of `text` occupies exactly `i` bytes. -/
def isCharBoundary (text : List Char) (i : Nat) : Bool :=
  (List.range (text.length + 1)).any (fun k => utf8Len (text.take k) = i)

/-- Outcome of one `broadcast_caption` call: either the Rust slice
`&text[..50]` in the log line panicked, or the command emitted the
`caption-update` payload carrying the full text. -/
inductive BroadcastResult where
  | panicked
  | emitted (payload : List Char)
deriving DecidableEq, Repr

/-- The `broadcast_caption` Tauri command from commands.rs: when
`text.len() > 50` the log line slices `&text[..50]`, which panics unless
byte 50 is a character boundary; otherwise `app.emit` broadcasts the whole
text (the emit itself modelled as delivered). -/
def broadcast_caption (text : List Char) : BroadcastResult :=
  if 50 < utf8Len text then
    if isCharBoundary text 50 then BroadcastResult.emitted text
    else BroadcastResult.panicked
  else BroadcastResult.emitted text

/-- One UI-command trigger against the overlay, as in the C-sequence of
show/hide/close/toggle; `show` and `toggle` carry whether the native window
construction would succeed if attempted. -/
inductive Op where
  | showCmd (buildOk : Bool)
  | hide
  | close
  | toggle (buildOk : Bool)
deriving DecidableEq, Repr

/-- Run one UI command, keeping the state it leaves behind whether or not
the command returned an error. -/
def runOp (op : Op) (s : WinSys) : WinSys :=
  match op with
  | Op.showCmd b => (show_overlay b s).2
  | Op.hide => (hide_overlay s).2
  | Op.close => (close_overlay s).2
  | Op.toggle b => (toggle_overlay b s).2

/-- Run a sequence of UI commands from left to right. -/
def runOps (ops : List Op) (s : WinSys) : WinSys :=
  ops.foldl (fun s op => runOp op s) s

/-- The flag/window consistency invariant: the `overlay_visible` flag is
`true` exactly when the overlay window exists and is shown. -/
def flagInvariant (s : WinSys) : Prop :=
  s.overlayVisible = true ↔ s.overlay = WinState.shown

instance (s : WinSys) : Decidable (flagInvariant s) := by
  unfold flagInvariant
  infer_instance

/-- Each UI command preserves the flag/window consistency invariant,
whether or not it reports an error. -/
theorem flagInvariant_runOp (op : Op) (s : WinSys) (h : flagInvariant s) :
    flagInvariant (runOp op s) := by
  cases op with
  | showCmd b =>
      simp only [runOp, show_overlay, create_overlay_window, show_overlay_window]
      by_cases ha : s.overlay = WinState.absent
      · by_cases hb : b
        · simp [ha, hb, flagInvariant]
        · simpa [ha, hb, flagInvariant] using h
      · simp [ha, flagInvariant]
  | hide =>
      simp only [runOp, hide_overlay, hide_overlay_window]
      by_cases ha : s.overlay = WinState.absent
      · simp [ha, flagInvariant]
      · simp [ha, flagInvariant]
  | close =>
      simp [runOp, close_overlay, close_overlay_window, flagInvariant]
  | toggle b =>
      simp only [runOp, toggle_overlay]
      by_cases hv : s.overlayVisible
      · simp only [hv, if_true]
        simp only [hide_overlay, hide_overlay_window]
        by_cases ha : s.overlay = WinState.absent
        · simp [ha, flagInvariant]
        · simp [ha, flagInvariant]
      · simp only [hv, if_false]
        simp only [show_overlay, create_overlay_window, show_overlay_window]
        by_cases ha : s.overlay = WinState.absent
        · by_cases hb : b
          · simp [ha, hb, flagInvariant]
          · simpa [ha, hb, flagInvariant] using h
        · simp [ha, flagInvariant]

/-- The invariant is preserved by any sequence of UI commands. -/
theorem flagInvariant_runOps (ops : List Op) (s : WinSys)
    (h : flagInvariant s) : flagInvariant (runOps ops s) := by
  induction ops generalizing s with
  | nil => exact h
  | cons op ops ih =>
      exact ih (runOp op s) (flagInvariant_runOp op s h)

/-- C1: for every sequence of `show_overlay`, `hide_overlay`,
`close_overlay` and `toggle_overlay` calls starting from the initial state
(no overlay window, flag `false`), `get_overlay_visible` returns `true` iff
the overlay window currently exists and is shown. -/
theorem C1_flag_window_consistency (ops : List Op) :
    get_overlay_visible (runOps ops WinSys.init) = Except.ok true ↔
      (runOps ops WinSys.init).overlay = WinState.shown := by
  have h : flagInvariant (runOps ops WinSys.init) :=
    flagInvariant_runOps ops WinSys.init (by decide)
  unfold flagInvariant at h
  simpa [get_overlay_visible] using h

/-- A reachable state in which the overlay is shown and the main window is
hidden (e.g. after the tray-menu "show overlay" path). -/
def overlayOnlyState : WinSys :=
  { overlay := WinState.shown
    mainVisible := false
    overlayVisible := true
    buildCalls := 1
    settings := AppSettings.default.overlay }

/-- C2 counterexample: delivering the overlay's close-requested
notification from a state where the main window is hidden changes the main
window's visibility (the handler calls `show_main_window`), so the claim
that main-window visibility is left unaffected fails on this code. -/
theorem C2_counterexample :
    (on_close_requested "overlay" overlayOnlyState).mainVisible ≠
      overlayOnlyState.mainVisible := by
  decide

/-- C2 (amended): when the overlay window alone receives a close-requested
notification, the handler resets the overlay-visible flag to `false`, hides
the overlay window if it exists, and shows the main window (the
earlier-revision auto-restore behavior present in this code). -/
theorem C2_overlay_close_resets_flag (s : WinSys) :
    (on_close_requested "overlay" s).overlayVisible = false ∧
    (on_close_requested "overlay" s).mainVisible = true ∧
    (on_close_requested "overlay" s).overlay =
      (if s.overlay = WinState.absent then WinState.absent
       else WinState.hidden) := by
  by_cases ha : s.overlay = WinState.absent <;>
    simp [on_close_requested, show_main_window, ha]

/-- The serialized form of the default settings with the `font` object
replaced: its `color` key is missing, its `size` is 99, its other keys hold
the default values. -/
def rawMissingFontColor : RawAppSettings :=
  { AppSettings.default.ser with
    font := some
      { family := some AppSettings.default.font.family
        size := some 99
        weight := some AppSettings.default.font.weight
        color := none
        align := some AppSettings.default.font.align
        line_height := some AppSettings.default.font.line_height } }

/-- The record C3 predicts for `rawMissingFontColor`: the default record
except at the fields actually present in the file (here `font.size`). -/
def c3PredictedRecord : AppSettings :=
  { AppSettings.default with
    font := { AppSettings.default.font with size := 99 } }

/-- C3 counterexample: a settings file whose `font` object misses only
`color` (and carries `size = 99`) does NOT load as the default record
patched with the file's fields — serde rejects the whole `font` object
because `color` carries no field default, and `load_settings` falls back to
the entire default record, dropping the file's `font.size = 99`. -/
theorem C3_counterexample :
    load_settings (some (FileContent.good rawMissingFontColor)) =
        AppSettings.default ∧
    load_settings (some (FileContent.good rawMissingFontColor)) ≠
        c3PredictedRecord := by
  refine ⟨rfl, fun h => ?_⟩
  have h32 :
      (load_settings (some (FileContent.good rawMissingFontColor))).font.size
        = 32 := rfl
  rw [h] at h32
  exact absurd h32 (by decide)

/-- Drop the `lineHeight` key from a serialized settings document. -/
def eraseLineHeight (r : RawAppSettings) : RawAppSettings :=
  { r with font := r.font.map (fun f => { f with line_height := none }) }

/-- Drop the `color` key from a serialized settings document. -/
def eraseFontColor (r : RawAppSettings) : RawAppSettings :=
  { r with font := r.font.map (fun f => { f with color := none }) }

/-- C3 (amended): per-field default fill happens only for the one field
with a serde default, `font.lineHeight`: a file missing exactly that key
loads as the file's values with `lineHeight = 1.3`; a file missing any
other font field, such as `font.color`, makes deserialization of the whole
document fail and `load_settings` returns the entire default record,
discarding every value present in the file. -/
theorem C3_field_default_only_line_height (s : AppSettings) :
    load_settings (some (FileContent.good (eraseLineHeight s.ser))) =
      { s with font := { s.font with line_height := default_line_height } } ∧
    load_settings (some (FileContent.good (eraseFontColor s.ser))) =
      AppSettings.default := by
  constructor
  · rfl
  · rfl

/-- The state after the first `toggle_overlay` call from the initial state:
overlay created and shown, flag `true`, one builder invocation. -/
def afterFirstToggle : WinSys :=
  { WinSys.init with overlay := WinState.shown, overlayVisible := true,
                     buildCalls := 1 }

/-- The state after the second `toggle_overlay` call: overlay hidden (not
destroyed), flag `false`, still one builder invocation. -/
def afterSecondToggle : WinSys :=
  { WinSys.init with overlay := WinState.hidden, overlayVisible := false,
                     buildCalls := 1 }

/-- C4: `toggle_overlay` reads the flag; if `true` it performs the hide
operation and returns `false`, if `false` it performs create-or-show and
(on success) returns `true`.  From the initial state, the first call
creates and shows the overlay, sets the flag and returns `true`; the second
hides it, clears the flag and returns `false`. -/
theorem C4_toggle_spec :
    (∀ (b : Bool) (s : WinSys), s.overlayVisible = true →
        toggle_overlay b s = (Except.ok false, (hide_overlay s).2)) ∧
    (∀ (b : Bool) (s : WinSys), s.overlayVisible = false →
        (show_overlay b s).1 = Except.ok () →
        toggle_overlay b s = (Except.ok true, (show_overlay b s).2)) ∧
    toggle_overlay true WinSys.init = (Except.ok true, afterFirstToggle) ∧
    toggle_overlay true afterFirstToggle =
      (Except.ok false, afterSecondToggle) := by
  refine ⟨?_, ?_, rfl, rfl⟩
  · intro b s h
    simp [toggle_overlay, h]
  · intro b s h hok
    cases hE : show_overlay b s with
    | mk r s' =>
        cases r with
        | error e =>
            rw [hE] at hok
            exact absurd hok (by simp)
        | ok u =>
            cases u
            simp [toggle_overlay, h, hE]

/-- C4 witness: the general hide branch of `C4_toggle_spec` instantiated at
the concrete post-first-toggle state. -/
theorem C4_toggle_spec_witness :
    toggle_overlay true afterFirstToggle =
      (Except.ok false, (hide_overlay afterFirstToggle).2) :=
  C4_toggle_spec.1 true afterFirstToggle rfl

/-- C5: starting from a state where the flag is unset, the flag reads
`true` afterwards only if the overlay window is actually shown — for both
the `show_overlay` command and the tray-spawned path; a `show_overlay`
error leaves the state (flag included) untouched; and on the tray-spawned
path a creation failure re-shows the main window and changes nothing
else — the flag stays unset. -/
theorem C5_flag_set_after_action :
    (∀ (b : Bool) (s : WinSys), s.overlayVisible = false →
        (spawn_show_overlay_window b s).overlayVisible = true →
        (spawn_show_overlay_window b s).overlay = WinState.shown) ∧
    (∀ (b : Bool) (s : WinSys), s.overlayVisible = false →
        (show_overlay b s).2.overlayVisible = true →
        (show_overlay b s).2.overlay = WinState.shown) ∧
    (∀ (b : Bool) (s : WinSys) (e : String),
        (show_overlay b s).1 = Except.error e → (show_overlay b s).2 = s) ∧
    (∀ s : WinSys, s.overlay = WinState.absent → s.overlayVisible = false →
        spawn_show_overlay_window false s = { s with mainVisible := true }) := by
  refine ⟨?_, ?_, ?_, ?_⟩
  · intro b s h ht
    by_cases ha : s.overlay = WinState.absent
    · by_cases hb : b
      · simp [spawn_show_overlay_window, create_overlay_window, ha, hb]
      · simp [spawn_show_overlay_window, create_overlay_window, ha, hb, h]
          at ht
    · simp [spawn_show_overlay_window, show_overlay_window, ha]
  · intro b s h ht
    by_cases ha : s.overlay = WinState.absent
    · by_cases hb : b
      · simp [show_overlay, create_overlay_window, ha, hb]
      · simp [show_overlay, create_overlay_window, ha, hb, h] at ht
    · simp [show_overlay, show_overlay_window, ha]
  · intro b s e he
    by_cases ha : s.overlay = WinState.absent
    · by_cases hb : b
      · simp [show_overlay, create_overlay_window, ha, hb] at he
      · simp [show_overlay, create_overlay_window, ha, hb]
    · simp [show_overlay, show_overlay_window, ha] at he
  · intro s ha h
    simp [spawn_show_overlay_window, create_overlay_window, ha]

/-- C5 witness: the tray-path creation-failure branch instantiated at the
initial state. -/
theorem C5_flag_set_after_action_witness :
    spawn_show_overlay_window false WinSys.init =
      { WinSys.init with mainVisible := true } :=
  C5_flag_set_after_action.2.2.2 WinSys.init rfl rfl

/-- C6: saving a settings record `S` (with both encoding and the file write
succeeding) and then loading yields a record equal to `S`, for every `S`
and every prior store state. -/
theorem C6_settings_roundtrip (S : AppSettings) (st : SettingsSys) :
    load_settings (save_settings_command ⟨true, true⟩ S st).2.file = S :=
  rfl

/-- C7: overlay creation is idempotent — after a successful create, a
second create with no intervening close returns `Ok` and leaves the state
(builder-invocation count included) unchanged, and exactly one window
carries the overlay identity. -/
theorem C7_create_idempotent (b : Bool) (s : WinSys) :
    (create_overlay_window b (create_overlay_window true s).2).1 =
        Except.ok () ∧
    (create_overlay_window b (create_overlay_window true s).2).2 =
        (create_overlay_window true s).2 ∧
    ((create_overlay_window true s).2).overlay.count = 1 := by
  cases hov : s.overlay <;>
    simp [create_overlay_window, hov, WinState.count]

/-- The JSON object with every settings key missing (`{}`). -/
def rawEmpty : RawAppSettings :=
  { overlay := none
    font := none
    connection := none
    last_session_code := none
    theme := none }

/-- C8: `load_settings` is total and never fails its caller — a missing
file, unreadable content, malformed content, and a JSON document from which
deserialization fails all yield the full default record, and on any parsed
document the result is the parse when it succeeds, else the default. -/
theorem C8_load_never_fails :
    load_settings none = AppSettings.default ∧
    load_settings (some FileContent.unreadable) = AppSettings.default ∧
    load_settings (some FileContent.badJson) = AppSettings.default ∧
    load_settings (some (FileContent.good rawEmpty)) = AppSettings.default ∧
    (∀ r : RawAppSettings,
        load_settings (some (FileContent.good r)) =
          (r.deser).getD AppSettings.default) :=
  ⟨rfl, rfl, rfl, rfl, fun _ => rfl⟩

/-- C9: when persistence fails during encoding, the previously saved file
is untouched (the write runs only after a successful encode) and an error
is returned; for every environment, the in-memory snapshot has already been
replaced by the new record and is not rolled back. -/
theorem C9_save_failure_isolation (w : Bool) (S : AppSettings)
    (st : SettingsSys) :
    (save_settings_command ⟨false, w⟩ S st).2.file = st.file ∧
    (save_settings_command ⟨false, w⟩ S st).1 =
        Except.error "serialization error" ∧
    (∀ env : SaveEnv, (save_settings_command env S st).2.inMemory = S) := by
  refine ⟨rfl, rfl, fun env => ?_⟩
  obtain ⟨e, wr⟩ := env
  cases e <;> cases wr <;> rfl

/-- A caption whose UTF-8 length is 52 bytes and whose byte 50 falls inside
the two-byte character at byte offsets 49–50. -/
def panicCaption : List Char := List.replicate 49 'a' ++ ['é', 'x']

/-- C10: `broadcast_caption` is not total — on `panicCaption`, whose length
exceeds 50 bytes and whose byte index 50 is not a character boundary, the
log-truncation slice panics instead of broadcasting; every text of at most
50 bytes, and every longer text with a boundary at byte 50, is emitted as a
caption-update payload. -/
theorem C10_broadcast_not_total :
    broadcast_caption panicCaption = BroadcastResult.panicked ∧
    50 < utf8Len panicCaption ∧
    isCharBoundary panicCaption 50 = false ∧
    (∀ text : List Char, utf8Len text ≤ 50 →
        broadcast_caption text = BroadcastResult.emitted text) ∧
    (∀ text : List Char, isCharBoundary text 50 = true →
        broadcast_caption text = BroadcastResult.emitted text) := by
  refine ⟨by decide, by decide, by decide, ?_, ?_⟩
  · intro text h
    simp [broadcast_caption, show ¬ (50 < utf8Len text) from by omega]
  · intro text h
    by_cases hl : 50 < utf8Len text <;> simp [broadcast_caption, hl, h]

/-- C10 witness: a short caption is emitted unchanged. -/
theorem C10_broadcast_not_total_witness :
    broadcast_caption ['h', 'i'] = BroadcastResult.emitted ['h', 'i'] :=
  C10_broadcast_not_total.2.2.2.1 ['h', 'i'] (by decide)

end Jutukuva
